import Mathlib

/-!
# Verification of the wid-backend answer pipeline

A shallow embedding of the wid-backend server (Express + Postgres + OpenAI):
the similarity scorer, the answer store operations (save / list / update /
delete), the retrieval ranking, the chat response composer with its lexical
fallback, and the reindex batch job.  External effects (the embedding
provider, the generative backend, storage failures, request headers) are
modelled as explicit inputs; the database is modelled as an in-memory store
with an explicit clock.  All numeric vector entries are rationals; the
similarity score itself lives in `ℝ` because the source computes it with
`Math.sqrt`.
-/

namespace Wid

/-- The fixed disclosure sentence (`const disclosure` in the chat handler). -/
def disclosure : String := "AI reconstruction based on your recorded words."

/-- The canned reply used when no candidate clears the threshold and when the
generative backend returns empty/missing content:
`` `I’m not sure I captured this while I was alive.\n\n${disclosure}` ``. -/
def notSureReply : String :=
  "I’m not sure I captured this while I was alive.\n\n" ++ disclosure

/-! ## Similarity scorer (`cosineSim`)

```js
function cosineSim(a, b) {
  let dot = 0, na = 0, nb = 0;
  const len = Math.min(a.length, b.length);
  for (let i = 0; i < len; i++) { const x = a[i], y = b[i]; dot += x*y; na += x*x; nb += y*y; }
  const denom = Math.sqrt(na) * Math.sqrt(nb) || 1;
  return dot / denom;
}
```
The loop runs over the overlapping length `len = min`, which is exactly a
fold over `a.zip b`.  The `|| 1` coalescing replaces a zero product of square
roots (the only falsy value a nonnegative square-root product can take
besides NaN, which cannot arise from rational inputs) by `1`. -/

/-- Dot product over the overlapping entries (the `dot` accumulator). -/
def dotPre (a b : List ℚ) : ℚ := ((a.zip b).map fun p => p.1 * p.2).sum

/-- Sum of squares of the first vector's overlapping entries (`na`). -/
def naPre (a b : List ℚ) : ℚ := ((a.zip b).map fun p => p.1 * p.1).sum

/-- Sum of squares of the second vector's overlapping entries (`nb`). -/
def nbPre (a b : List ℚ) : ℚ := ((a.zip b).map fun p => p.2 * p.2).sum

/-- The effective divisor `Math.sqrt(na) * Math.sqrt(nb) || 1`. -/
noncomputable def cosineDenom (a b : List ℚ) : ℝ :=
  if Real.sqrt (naPre a b : ℝ) * Real.sqrt (nbPre a b : ℝ) = 0 then 1
  else Real.sqrt (naPre a b : ℝ) * Real.sqrt (nbPre a b : ℝ)

/-- Definition of `cosineSim` from the source: `dot / denom`. -/
noncomputable def cosineSim (a b : List ℚ) : ℝ :=
  (dotPre a b : ℝ) / cosineDenom a b

/-! ## Tone sliders

```js
const formality = typeof tone?.formality === 'number' ? tone.formality : 0.5;
```
A request-body field is modelled as an optional JSON scalar; only the
`num` constructor satisfies `typeof === 'number'`. -/

/-- A JSON scalar as it can appear in a tone field of the request body. -/
inductive JsonVal
  | num (q : ℚ)
  | str (s : String)
  | bool (b : Bool)
  | null
deriving DecidableEq

/-- Model of `typeof v === "number" ? v : 0.5` (with `none` standing for an absent
field, i.e. `undefined`). -/
def toneValue : Option JsonVal → ℚ
  | some (.num q) => q
  | _ => 1 / 2

end Wid

namespace Wid

/-! ## Data model

The relational store (`profiles`, `answers`, `answer_embeddings` from
`schema.sql`) as an in-memory structure.  `now` is the database clock used
for `created_at` / `updated_at` defaults; it is advanced after every write so
that later writes carry strictly larger timestamps (the single-writer test
scenarios of the spec; simultaneous commits in one tick are not modelled).
`nextId` models the `BIGSERIAL` id sequence of `answers`. -/

/-- One row of the `answers` table. -/
structure AnswerRow where
  id : Nat
  profileId : Int
  question : String
  answerText : String
  createdAt : Nat
  updatedAt : Nat
deriving DecidableEq

/-- One row of the `answer_embeddings` table. -/
structure EmbedRow where
  answerId : Nat
  content : String
  embedding : List ℚ
  createdAt : Nat
  updatedAt : Nat
deriving DecidableEq

/-- The durable store: profile ids, answers, embeddings, id sequence, clock. -/
structure Store where
  profiles : List Int
  answers : List AnswerRow
  embeddings : List EmbedRow
  nextId : Nat
  now : Nat
deriving DecidableEq

/-- An HTTP error reply: `res.status(status).json({ error })`.  The extra
debug fields of the 403 ownership reply are not modelled. -/
structure ErrResp where
  status : Nat
  error : String
deriving DecidableEq

/-- The success payload of a save: `{ id, created_at }`. -/
structure SaveResult where
  id : Nat
  createdAt : Nat
deriving DecidableEq

/-- One item of the `GET /answers` listing
(`SELECT id, question, answer_text, created_at, updated_at`). -/
structure ListedAnswer where
  id : Nat
  question : String
  answerText : String
  createdAt : Nat
  updatedAt : Nat
deriving DecidableEq

/-- Projection of an answer row onto the listed columns. -/
def toListed (a : AnswerRow) : ListedAnswer :=
  ⟨a.id, a.question, a.answerText, a.createdAt, a.updatedAt⟩

/-- The reply of `POST /reindex`:
`{ indexed, failed, remainingHint }`. -/
structure ReindexResult where
  indexed : Nat
  failed : Nat
  remainingHint : String
deriving DecidableEq

/-- The outcome of one best-effort embedding attempt surrounding a write:
no provider configured, provider call failed, or a vector was obtained. -/
inductive EmbedOutcome
  | noProvider
  | failed
  | ok (v : List ℚ)
deriving DecidableEq

/-! ## Sort orders

`ORDER BY created_at DESC / ASC` and the chat handler's
`.sort((x, y) => y.score - x.score)`.  All are modelled as the stable
insertion sort `List.insertionSort` (JavaScript's `Array.prototype.sort` is
required to be stable; SQL leaves ties unordered, but ties cannot arise
under the strictly monotone clock of this model). -/

/-- Comparator for `ORDER BY created_at DESC`. -/
def recentFirst (x y : AnswerRow) : Prop := y.createdAt ≤ x.createdAt

instance : DecidableRel recentFirst := fun _ _ => Nat.decLe _ _

instance : IsTotal AnswerRow recentFirst := ⟨fun a b => le_total b.createdAt a.createdAt⟩

instance : IsTrans AnswerRow recentFirst :=
  ⟨fun _ _ _ h1 h2 => le_trans h2 h1⟩

/-- Comparator for `ORDER BY created_at ASC`. -/
def oldestFirst (x y : AnswerRow) : Prop := x.createdAt ≤ y.createdAt

instance : DecidableRel oldestFirst := fun _ _ => Nat.decLe _ _

/-- The chat comparator `(x, y) => y.score - x.score`: descending by score. -/
def scoreRel {α : Type} (x y : α × ℝ) : Prop := y.2 ≤ x.2

noncomputable instance {α : Type} : DecidableRel (scoreRel (α := α)) :=
  fun x y => inferInstanceAs (Decidable (y.2 ≤ x.2))

instance {α : Type} : IsTotal (α × ℝ) scoreRel := ⟨fun a b => le_total b.2 a.2⟩

instance {α : Type} : IsTrans (α × ℝ) scoreRel := ⟨fun _ _ _ h1 h2 => le_trans h2 h1⟩

/-! ## Profile resolution -/

/-- Model of `getProfileId(req)`: the `X-Profile-Id` header parsed with `Number`;
`none` stands for a missing or non-integer header.  Throws 401 unless the
value is a positive integer. -/
def getProfileId (header : Option Int) : Except ErrResp Int :=
  match header with
  | none => .error ⟨401, "missing profile id"⟩
  | some id => if id ≤ 0 then .error ⟨401, "missing profile id"⟩ else .ok id

/-- Model of `ensureProfileExists(client, id)`: 401 unless the id is a row of
`profiles`. -/
def ensureProfileExists (st : Store) (id : Int) : Except ErrResp Int :=
  if id ∈ st.profiles then .ok id else .error ⟨401, "invalid profile id"⟩

/-- Composition `ensureProfileExists(client, getProfileId(req))` — the argument is
evaluated first, so the header error wins. -/
def resolveProfile (st : Store) (header : Option Int) : Except ErrResp Int :=
  match getProfileId header with
  | .error e => .error e
  | .ok id => ensureProfileExists st id

/-! ## Store queries and writes -/

/-- Query `SELECT ... FROM answers WHERE profile_id = $1 ORDER BY created_at DESC`. -/
def profileAnswersDesc (st : Store) (pid : Int) : List AnswerRow :=
  (st.answers.filter fun a => decide (a.profileId = pid)).insertionSort recentFirst

/-- The embedding row attached to an answer, if any
(`JOIN answer_embeddings e ON e.answer_id = a.id`). -/
def findEmbedding (st : Store) (aid : Nat) : Option EmbedRow :=
  st.embeddings.find? fun e => e.answerId == aid

/-- Upsert `INSERT INTO answer_embeddings ... ON CONFLICT (answer_id) DO UPDATE
SET content = ..., embedding = ..., updated_at = NOW()`. -/
def upsertEmbedding (st : Store) (aid : Nat) (content : String) (v : List ℚ) : Store :=
  if (st.embeddings.find? fun e => e.answerId == aid).isSome then
    { st with embeddings := st.embeddings.map fun e =>
        if e.answerId == aid then
          { e with content := content, embedding := v, updatedAt := st.now }
        else e }
  else
    { st with embeddings := st.embeddings ++ [⟨aid, content, v, st.now, st.now⟩] }

/-- Model of `saveAnswerCore(client, ...)`: checks the
profile, inserts the answer row (returning `id, created_at`), then makes a
best-effort embedding attempt whose failure is logged but never surfaced. -/
def saveAnswerCore (st : Store) (profileId : Int) (question text : String)
    (emb : EmbedOutcome) : Except ErrResp (Store × SaveResult) :=
  match ensureProfileExists st profileId with
  | .error e => .error e
  | .ok pid =>
    let row : AnswerRow := ⟨st.nextId, pid, question, text, st.now, st.now⟩
    let st1 : Store := { st with answers := st.answers ++ [row], nextId := st.nextId + 1 }
    let st2 : Store :=
      match emb with
      | .ok v => upsertEmbedding st1 row.id text v
      | _ => st1
    .ok ({ st2 with now := st2.now + 1 }, ⟨row.id, row.createdAt⟩)

/-- The rows returned by `GET /answers` for a profile:
`WHERE profile_id = $1 ORDER BY created_at DESC LIMIT 100`. -/
def answersListing (st : Store) (pid : Int) : List ListedAnswer :=
  ((profileAnswersDesc st pid).take 100).map toListed

/-- The `GET /answers` handler: profile resolution, then the listing. -/
def getAnswers (st : Store) (header : Option Int) : Except ErrResp (List ListedAnswer) :=
  match resolveProfile st header with
  | .error e => .error e
  | .ok pid => .ok (answersListing st pid)

/-- Model of JavaScript `String.prototype.trim`: strip whitespace from both
ends, at the character-list level. -/
def jsTrim (s : String) : String :=
  ⟨((s.data.dropWhile Char.isWhitespace).reverse.dropWhile Char.isWhitespace).reverse⟩

/-- Handler of `PUT /answers/:id`: validate the id and the new text, resolve the
profile, look up the row's owner (404 when absent), reject a non-owner with
403 leaving the store untouched, otherwise update the text and
`updated_at` and best-effort refresh the embedding. -/
def updateAnswer (st : Store) (header : Option Int) (answerId : Nat) (text : String)
    (emb : EmbedOutcome) : Store × Except ErrResp Nat :=
  if answerId = 0 then (st, .error ⟨400, "invalid id"⟩)
  else if (jsTrim text) = "" then (st, .error ⟨400, "text required"⟩)
  else
    match resolveProfile st header with
    | .error e => (st, .error e)
    | .ok pid =>
      match st.answers.find? fun a => a.id == answerId with
      | none => (st, .error ⟨404, "not_found"⟩)
      | some a =>
        if a.profileId ≠ pid then (st, .error ⟨403, "forbidden"⟩)
        else
          let st1 : Store := { st with answers := st.answers.map fun r =>
            if r.id == answerId then { r with answerText := text, updatedAt := st.now }
            else r }
          let st2 : Store :=
            match emb with
            | .ok v => upsertEmbedding st1 answerId text v
            | _ => st1
          ({ st2 with now := st2.now + 1 }, .ok answerId)

/-- Handler of `DELETE /answers/:id`: same validation and ownership checks; deletes the
row, cascading to its embedding (`ON DELETE CASCADE`). -/
def deleteAnswer (st : Store) (header : Option Int) (answerId : Nat) :
    Store × Except ErrResp Nat :=
  if answerId = 0 then (st, .error ⟨400, "invalid id"⟩)
  else
    match resolveProfile st header with
    | .error e => (st, .error e)
    | .ok pid =>
      match st.answers.find? fun a => a.id == answerId with
      | none => (st, .error ⟨404, "not_found"⟩)
      | some a =>
        if a.profileId ≠ pid then (st, .error ⟨403, "forbidden"⟩)
        else
          ({ st with
              answers := st.answers.filter fun r => !(r.id == answerId),
              embeddings := st.embeddings.filter fun e => !(e.answerId == answerId),
              now := st.now + 1 }, .ok answerId)

/-! ## Retrieval ranking -/

/-- Ranking `scored.sort((x,y) => y.score - x.score).slice(0, 5).filter(r => r.score > 0.1)`:
stable descending sort by score, first 5, then drop scores at or below 0.1. -/
noncomputable def rankCandidates {α : Type} (scored : List (α × ℝ)) : List (α × ℝ) :=
  ((scored.insertionSort scoreRel).take 5).filter fun p => decide ((1 : ℝ) / 10 < p.2)

/-! ## Reindex job -/

/-- The batch selected by `POST /reindex`: the profile's answers lacking an
embedding row, oldest first, at most 100
(`LEFT JOIN ... WHERE a.profile_id = $1 AND e.answer_id IS NULL
ORDER BY a.created_at ASC LIMIT 100`). -/
def reindexPending (st : Store) (pid : Int) : List AnswerRow :=
  ((st.answers.filter fun a =>
      decide (a.profileId = pid) && (findEmbedding st a.id).isNone).insertionSort
    oldestFirst).take 100

/-- The per-row loop of the reindex job.  `embedOf` gives the outcome of
`embedText(r.answer_text)` for each row (`none` = the provider call threw);
a failure increments `fail` and moves on, a success upserts the embedding
and increments `ok`. -/
def reindexLoop (embedOf : Nat → Option (List ℚ)) :
    List AnswerRow → Store → Nat → Nat → Store × Nat × Nat
  | [], st, ok, fail => (st, ok, fail)
  | r :: rs, st, ok, fail =>
    match embedOf r.id with
    | some v => reindexLoop embedOf rs (upsertEmbedding st r.id r.answerText v) (ok + 1) fail
    | none => reindexLoop embedOf rs st ok (fail + 1)

/-- Handler of `POST /reindex`: refuses up front (before any storage access) when no
provider is configured, resolves the profile, then processes the pending
batch row by row with partial-failure semantics and reports whether the
batch was full. -/
def reindex (st : Store) (hasOpenAI : Bool) (header : Option Int)
    (embedOf : Nat → Option (List ℚ)) : Store × Except ErrResp ReindexResult :=
  if ¬ hasOpenAI then (st, .error ⟨400, "OPENAI_API_KEY not set"⟩)
  else
    match resolveProfile st header with
    | .error e => (st, .error e)
    | .ok pid =>
      let rows := reindexPending st pid
      let out := reindexLoop embedOf rows st 0 0
      (out.1, .ok ⟨out.2.1, out.2.2,
        if 100 ≤ rows.length then "run again to index more" else "complete"⟩)

/-! ## Chat handler (`POST /chat`)

The response composer of the profile-scoped server: primary grounded
synthesis (embed the query, retrieve and rank this profile's candidates,
invoke the generative backend) with every primary-path exception routed to
the lexical fallback.  The external world is an explicit `ChatEnv`: provider
availability, the raw profile header, the outcome of the query-embedding
call, storage failures, and the generative backend as an oracle from the
built prompts to an optional reply. -/

/-- Suffix test on strings, by character list. -/
def strEndsWith (s t : String) : Bool := t.data.isSuffixOf s.data

/-- Lexical search term of the fallback:
`message.split(/\s+/)[0] || message`.  Splitting on whitespace runs makes
element 0 the maximal whitespace-free leading run of the string (empty — and
hence falsy, falling back to the whole message — exactly when the message
starts with whitespace). -/
def fallbackTerm (message : String) : String :=
  let t : String := ⟨message.data.takeWhile fun c => !c.isWhitespace⟩
  if t = "" then message else t

/-- Postgres `LIKE`/`ILIKE` pattern matching over characters, case-folded:
`%` matches any sequence, `_` any single character, anything else itself
(escape sequences are not modelled; no pattern used here contains them). -/
def likeMatch : List Char → List Char → Bool
  | [], [] => true
  | [], _ :: _ => false
  | '%' :: ps, [] => likeMatch ps []
  | '%' :: ps, c :: cs => likeMatch ps (c :: cs) || likeMatch ('%' :: ps) cs
  | '_' :: _, [] => false
  | '_' :: ps, _ :: cs => likeMatch ps cs
  | _ :: _, [] => false
  | p :: ps, c :: cs => (p.toLower == c.toLower) && likeMatch ps cs
termination_by p t => p.length + t.length

/-- Containment test `col ILIKE '%' || term || '%'`. -/
def ilikeContains (term text : String) : Bool :=
  likeMatch ('%' :: (term.data ++ ['%'])) text.data

/-- The fallback retrieval:
`WHERE profile_id = $1 AND (answer_text ILIKE '%'||$2||'%' OR question ILIKE '%'||$2||'%')
ORDER BY created_at DESC LIMIT 3`. -/
def fallbackRows (st : Store) (pid : Int) (term : String) : List AnswerRow :=
  ((st.answers.filter fun a =>
      decide (a.profileId = pid) &&
        (ilikeContains term a.answerText || ilikeContains term a.question)).insertionSort
    recentFirst).take 3

/-- One bullet of the fallback reply: `• Q: ...\n  A: ...`. -/
def snippetLine (a : AnswerRow) : String :=
  "• Q: " ++ a.question ++ "\n  A: " ++ a.answerText

/-- The fallback reply text: quoted matches plus the disclosure, or the
invitation to add more answers plus the disclosure. -/
def fallbackReply (message : String) (rows : List AnswerRow) : String :=
  if rows.isEmpty then
    "You asked: \"" ++ message ++ "\". I don’t see anything related yet. Add more answers!\n\n"
      ++ disclosure
  else
    "You asked: \"" ++ message ++ "\".\nHere are bits I found from your saved words:\n"
      ++ String.intercalate "\n" (rows.map snippetLine) ++ "\n\n" ++ disclosure

/-- Three-digit padding for `toFixed(3)` decimals. -/
def pad3 (n : Nat) : String :=
  (if n < 10 then "00" else if n < 100 then "0" else "") ++ toString n

/-- Rendering of `score.toFixed(3)` (round to three decimals; modelled for
the nonnegative scores that reach it). -/
noncomputable def toFixed3 (x : ℝ) : String :=
  toString (⌊x * 1000 + 1 / 2⌋ / 1000) ++ "." ++ pad3 (⌊x * 1000 + 1 / 2⌋ % 1000).toNat

/-- The tone line of the system prompt, `toneHints` in the source. -/
def toneHints (f d h : ℚ) : String :=
  "Formality: " ++ toString f ++ " (0=Casual, 1=Formal) · Detail: " ++ toString d
    ++ " (0=Concise, 1=Story-rich) · Humor: " ++ toString h ++ " (0=Serious, 1=Playful)"

/-- The system prompt of the primary path (the `system` array joined by
spaces). -/
def chatSystem (f d h : ℚ) : String :=
  "You are an AI reconstruction that MUST answer ONLY using the provided excerpts. "
    ++ "Use first-person singular as the person, and do not invent new facts. "
    ++ "Be warm and clear. If uncertain, say so. "
    ++ "Match tone settings → " ++ toneHints f d h ++ ". "
    ++ "Always end with: \"" ++ disclosure ++ "\""

/-- One indexed excerpt block of the evidence context. -/
noncomputable def excerptBlock (i : Nat) (p : AnswerRow × ℝ) : String :=
  "[#" ++ toString (i + 1) ++ " · score=" ++ toFixed3 p.2 ++ "]\nQ: "
    ++ p.1.question ++ "\nA: " ++ p.1.answerText

/-- The evidence context (excerpt blocks joined by blank lines). -/
noncomputable def contextBlock (top : List (AnswerRow × ℝ)) : String :=
  String.intercalate "\n\n" (top.enum.map fun q => excerptBlock q.1 q.2)

/-- The user prompt of the primary path (the `userPrompt` array joined by
newlines). -/
noncomputable def chatUserPrompt (message : String) (top : List (AnswerRow × ℝ)) : String :=
  "User question: " ++ message ++ "\n\nExcerpts (evidence):\n" ++ contextBlock top
    ++ "\n\nSynthesize a short answer in the person's voice using only the excerpts.\n"
    ++ "If evidence is insufficient, say: \"I’m not sure I captured this while I was alive.\"\n"
    ++ "End with exactly: \"" ++ disclosure ++ "\""

/-- One citation of the primary reply: `{ idx, question, score }`. -/
structure Citation where
  idx : Nat
  question : String
  score : ℝ

/-- A successful chat reply: the answer text, plus citations on the
primary-synthesis reply (`none` where the source sends no citations field). -/
structure ChatReply where
  answer : String
  citations : Option (List Citation)

/-- The external world of one chat request. `complete` is the generative
backend: given the system and user prompts it returns `none` when the API
call throws, `some content` otherwise, where the inner option is the
possibly-missing `choices[0].message.content`. -/
structure ChatEnv where
  message : String
  toneFormality : Option JsonVal
  toneDetail : Option JsonVal
  toneHumor : Option JsonVal
  hasOpenAI : Bool
  header : Option Int
  embedOutcome : Option (List ℚ)
  primaryDbError : Option String
  complete : String → String → Option (Option String)
  fallbackDbError : Option String

/-- Candidate rows of the primary retrieval: the profile's answers joined
with their embeddings, most recent first, `LIMIT 200`. -/
def chatCandidates (st : Store) (pid : Int) : List (AnswerRow × List ℚ) :=
  ((profileAnswersDesc st pid).filterMap fun a =>
    (findEmbedding st a.id).map fun e => (a, e.embedding)).take 200

/-- The primary grounded-synthesis path.  Any throwing step (`no_openai_key`,
profile resolution, query embedding, the retrieval query, the completion
call) yields `Except.error ()`, which the handler routes to the fallback. -/
noncomputable def chatPrimary (env : ChatEnv) (st : Store) (f d h : ℚ) :
    Except Unit ChatReply :=
  if ¬ env.hasOpenAI then .error ()
  else
    match resolveProfile st env.header with
    | .error _ => .error ()
    | .ok pid =>
      match env.embedOutcome with
      | none => .error ()
      | some qEmb =>
        match env.primaryDbError with
        | some _ => .error ()
        | none =>
          let top := rankCandidates
            ((chatCandidates st pid).map fun r => (r.1, cosineSim qEmb r.2))
          if top.isEmpty then .ok ⟨notSureReply, none⟩
          else
            match env.complete (chatSystem f d h) (chatUserPrompt env.message top) with
            | none => .error ()
            | some content =>
              let ans : String :=
                match content with
                | some s => if jsTrim s = "" then notSureReply else jsTrim s
                | none => notSureReply
              .ok ⟨ans, some (top.enum.map fun q => ⟨q.1 + 1, q.2.1.question, q.2.2⟩)⟩

/-- The fallback lexical-retrieval path (the catch block): re-derive the
profile id (which may itself throw 401 — there is no existence check here),
run the `ILIKE` query, and render the reply; a storage failure surfaces as
`e2.status || 500` and `e2.message || "db_error"`. -/
def chatFallback (env : ChatEnv) (st : Store) : Except ErrResp ChatReply :=
  match getProfileId env.header with
  | .error e => .error e
  | .ok pid =>
    match env.fallbackDbError with
    | some m => .error ⟨500, if m = "" then "db_error" else m⟩
    | none =>
      .ok ⟨fallbackReply env.message (fallbackRows st pid (fallbackTerm env.message)), none⟩

/-- The whole `POST /chat` handler: 400 on a missing message, then the
primary path with every exception routed to the fallback. -/
noncomputable def chatHandler (env : ChatEnv) (st : Store) : Except ErrResp ChatReply :=
  if env.message = "" then .error ⟨400, "message is required"⟩
  else
    match chatPrimary env st (toneValue env.toneFormality) (toneValue env.toneDetail)
        (toneValue env.toneHumor) with
    | .ok reply => .ok reply
    | .error _ => chatFallback env st

/-- Projection of a handler outcome onto the answer text of a successful
reply. -/
def chatAnswer? : Except ErrResp ChatReply → Option String
  | .ok r => some r.answer
  | .error _ => none

/-- Predicate for a reply that is exactly the generative backend's answer:
there are prompts for which the backend call returned content whose trimmed,
nonempty text is the answer verbatim. -/
def verbatimFrom (env : ChatEnv) (ans : String) : Prop :=
  ∃ sys usr s, env.complete sys usr = some (some s) ∧ ans = jsTrim s ∧ jsTrim s ≠ ""

/-- Test for a non-error outcome. -/
def okB {ε β : Type} : Except ε β → Bool
  | .ok _ => true
  | .error _ => false

/-- Projection of a save outcome onto its success payload. -/
def saveOk? : Except ErrResp (Store × SaveResult) → Option SaveResult
  | .ok (_, r) => some r
  | .error _ => none

/-- Projection of a save outcome onto the answers table it produced (empty
on error). -/
def savedAnswers : Except ErrResp (Store × SaveResult) → List AnswerRow
  | .ok (st, _) => st.answers
  | .error _ => []

end Wid

namespace Wid

/-! ## Concrete inputs used by witnesses and counterexamples -/

/-- A store with two profiles and no answers yet. -/
def store2 : Store := ⟨[1, 2], [], [], 1, 0⟩

/-- A store where answer 1 is owned by profile 1. -/
def store3 : Store := ⟨[1, 2], [⟨1, 1, "q", "a", 0, 0⟩], [], 2, 1⟩

/-- A store with three answers of profile 1, none embedded yet. -/
def store7 : Store :=
  ⟨[1], [⟨1, 1, "q1", "a1", 0, 0⟩, ⟨2, 1, "q2", "a2", 1, 1⟩, ⟨3, 1, "q3", "a3", 2, 2⟩],
    [], 4, 3⟩

/-- An embedding oracle that fails exactly on answer 2. -/
def embed7 : Nat → Option (List ℚ) := fun n => if n = 2 then none else some [1]

/-- A store with one embedded answer of profile 1, for driving the primary
chat path. -/
def store1 : Store := ⟨[1], [⟨1, 1, "q", "lasagna", 0, 0⟩], [⟨1, "lasagna", [1], 0, 0⟩], 2, 1⟩

/-- A chat environment in which every external call succeeds and the
generative backend answers a bare `"hello"` (no disclosure). -/
noncomputable def envHello : ChatEnv :=
  ⟨"food", none, none, none, true, some 1, some [1], none, fun _ _ => some (some "hello"), none⟩

/-- A chat environment with no generative backend and no profile header;
no storage failure is configured. -/
noncomputable def envNoHeader : ChatEnv :=
  ⟨"hi", none, none, none, false, none, none, none, fun _ _ => none, none⟩

/-- A chat environment with no generative backend, a valid header, and a
healthy store connection: the fallback path must succeed. -/
noncomputable def envFallbackOk : ChatEnv :=
  ⟨"hi", none, none, none, false, some 1, none, none, fun _ _ => none, none⟩

/-- A chat environment whose fallback storage query fails. -/
noncomputable def envDbDown : ChatEnv :=
  ⟨"hi", none, none, none, false, some 1, none, none, fun _ _ => none, some "relation answers does not exist"⟩

end Wid

/-! ## C8: degenerate similarity inputs -/

namespace Wid

theorem dotPre_eq_zero_left {a b : List ℚ} (h : ∀ x ∈ a, x = 0) :
    dotPre a b = 0 := by
  refine List.sum_eq_zero fun x hx => ?_
  obtain ⟨p, hp, rfl⟩ := List.mem_map.1 hx
  rw [h p.1 (List.of_mem_zip hp).1, zero_mul]

theorem dotPre_eq_zero_right {a b : List ℚ} (h : ∀ x ∈ b, x = 0) :
    dotPre a b = 0 := by
  refine List.sum_eq_zero fun x hx => ?_
  obtain ⟨p, hp, rfl⟩ := List.mem_map.1 hx
  rw [h p.2 (List.of_mem_zip hp).2, mul_zero]

theorem zip_take_min (a b : List ℚ) :
    (a.take (min a.length b.length)).zip (b.take (min a.length b.length)) =
      a.zip b := by
  induction a generalizing b with
  | nil => simp
  | cons x xs ih =>
    cases b with
    | nil => simp
    | cons y ys =>
      simp only [List.length_cons, Nat.succ_min_succ, List.take_succ_cons,
        List.zip_cons_cons, List.cons.injEq, true_and]
      exact ih ys

/-- C8: (i) If either input vector is identically zero, `cosineSim`
returns `0` (the dot product over the overlap vanishes, and the divisor is
clamped to `1`, so no division by zero occurs).  (ii) The effective divisor
`cosineDenom` is never zero, for any inputs.  (iii) When the lengths differ,
the score only ever depends on the overlapping entries: truncating both
vectors to the common length leaves the score unchanged. -/
theorem c8_degenerate_similarity :
    (∀ a b : List ℚ, ((∀ x ∈ a, x = 0) ∨ (∀ x ∈ b, x = 0)) →
      cosineSim a b = 0 ∧ cosineDenom a b = 1)
  ∧ (∀ a b : List ℚ, cosineDenom a b ≠ 0)
  ∧ (∀ a b : List ℚ, cosineSim a b =
      cosineSim (a.take (min a.length b.length)) (b.take (min a.length b.length))) := by
  have hdenom : ∀ a b : List ℚ, cosineDenom a b ≠ 0 := by
    intro a b
    unfold cosineDenom
    split
    · exact one_ne_zero
    · assumption
  refine ⟨?_, hdenom, ?_⟩
  · intro a b h
    have hdot : dotPre a b = 0 := by
      rcases h with h | h
      · exact dotPre_eq_zero_left h
      · exact dotPre_eq_zero_right h
    have hzero : cosineDenom a b = 1 := by
      have hna : (∀ x ∈ a, x = 0) → naPre a b = 0 := by
        intro h'
        refine List.sum_eq_zero fun x hx => ?_
        obtain ⟨p, hp, rfl⟩ := List.mem_map.1 hx
        rw [h' p.1 (List.of_mem_zip hp).1, zero_mul]
      have hnb : (∀ x ∈ b, x = 0) → nbPre a b = 0 := by
        intro h'
        refine List.sum_eq_zero fun x hx => ?_
        obtain ⟨p, hp, rfl⟩ := List.mem_map.1 hx
        rw [h' p.2 (List.of_mem_zip hp).2, mul_zero]
      unfold cosineDenom
      rcases h with h | h
      · rw [hna h]; norm_num
      · rw [hnb h]; norm_num
    constructor
    · rw [cosineSim, hdot]
      norm_num
    · exact hzero
  · intro a b
    unfold cosineSim cosineDenom dotPre naPre nbPre
    rw [zip_take_min]

/-- Concrete check for C8: the zero vector against `[3, 4]` scores `0`, with
the divisor clamped to `1`. -/
theorem c8_degenerate_similarity_witness :
    (∀ x ∈ [(0 : ℚ), 0], x = 0) ∧
      (cosineSim [(0 : ℚ), 0] [3, 4] = 0 ∧ cosineDenom [(0 : ℚ), 0] [3, 4] = 1) :=
  ⟨by decide, c8_degenerate_similarity.1 [(0 : ℚ), 0] [3, 4] (Or.inl (by decide))⟩

/-! ## C10: tone sliders are defaulted but never validated or clamped -/

/-- C10: a tone field that is not of number type (absent, string,
boolean, or null) is replaced by the default `0.5`; any numeric value —
including values outside `[0, 1]` such as `-3` or `3/2` — is passed through
unchanged to the prompt-building stage. -/
theorem c10_tone_passthrough :
    (∀ q : ℚ, toneValue (some (JsonVal.num q)) = q)
  ∧ toneValue none = 1 / 2
  ∧ (∀ s : String, toneValue (some (JsonVal.str s)) = 1 / 2)
  ∧ (∀ b : Bool, toneValue (some (JsonVal.bool b)) = 1 / 2)
  ∧ toneValue (some JsonVal.null) = 1 / 2
  ∧ toneValue (some (JsonVal.num (-3))) = -3
  ∧ toneValue (some (JsonVal.num (3 / 2))) = 3 / 2 :=
  ⟨fun _ => rfl, rfl, fun _ => rfl, fun _ => rfl, rfl, rfl, rfl⟩

/-! ## Shared sorting and store lemmas -/

theorem insertionSortAppendMax {α : Type} (r : α → α → Prop) [DecidableRel r]
    (l : List α) (x : α) (h : ∀ y ∈ l, ¬ r y x) :
    (l ++ [x]).insertionSort r = x :: l.insertionSort r := by
  induction l with
  | nil => rfl
  | cons a l ih =>
    have ha : ¬ r a x := h a (List.mem_cons_self a l)
    have ih' := ih fun y hy => h y (List.mem_cons_of_mem a hy)
    simp only [List.cons_append, List.insertionSort, List.append_eq, ih']
    simp only [List.orderedInsert, if_neg ha]

theorem upsertEmbedding_answers (st : Store) (aid : Nat) (c : String) (v : List ℚ) :
    (upsertEmbedding st aid c v).answers = st.answers := by
  unfold upsertEmbedding; split <;> rfl

theorem saveAnswerCore_notMem (st : Store) (pid : Int) (q t : String) (emb : EmbedOutcome)
    (hp : pid ∉ st.profiles) :
    saveAnswerCore st pid q t emb = .error ⟨401, "invalid profile id"⟩ := by
  unfold saveAnswerCore ensureProfileExists
  rw [if_neg hp]

theorem saveAnswerCore_ok (st : Store) (pid : Int) (q t : String) (emb : EmbedOutcome)
    (hp : pid ∈ st.profiles) :
    ∃ st' : Store, saveAnswerCore st pid q t emb = .ok (st', ⟨st.nextId, st.now⟩)
      ∧ st'.answers = st.answers ++ [⟨st.nextId, pid, q, t, st.now, st.now⟩] := by
  unfold saveAnswerCore ensureProfileExists
  rw [if_pos hp]
  cases emb with
  | noProvider => exact ⟨_, rfl, rfl⟩
  | failed => exact ⟨_, rfl, rfl⟩
  | ok v => exact ⟨_, rfl, by simp [upsertEmbedding_answers]⟩

/-! ## C2: answers are scoped to their owning profile -/

/-- C2: saving an answer for profile `pid` succeeds (returning the fresh id
and created timestamp), a subsequent listing for `pid` has that record as its
first (most recent) item, and a listing for any other profile never contains
it.  The clock/id hypotheses are the store invariants maintained by every
write (timestamps below the clock, ids below the sequence). -/
theorem c2_profile_isolation (st : Store) (pid : Int) (q t : String) (emb : EmbedOutcome)
    (hp : pid ∈ st.profiles)
    (hclock : ∀ a ∈ st.answers, a.createdAt < st.now)
    (hids : ∀ a ∈ st.answers, a.id < st.nextId) :
    saveOk? (saveAnswerCore st pid q t emb) = some ⟨st.nextId, st.now⟩
  ∧ ∀ st' res, saveAnswerCore st pid q t emb = .ok (st', res) →
      (answersListing st' pid).head? = some ⟨res.id, q, t, res.createdAt, res.createdAt⟩
      ∧ ∀ pid' : Int, pid' ≠ pid → ∀ item ∈ answersListing st' pid', item.id ≠ res.id := by
  obtain ⟨st2, hok, hans⟩ := saveAnswerCore_ok st pid q t emb hp
  refine ⟨by rw [hok]; rfl, ?_⟩
  intro st' res hsave
  rw [hok] at hsave
  injection hsave with hpair
  injection hpair with h1 h2
  subst h1; subst h2
  have row_def : (⟨st.nextId, pid, q, t, st.now, st.now⟩ : AnswerRow).profileId = pid := rfl
  constructor
  · have hfilter : st2.answers.filter (fun a => decide (a.profileId = pid)) =
        st.answers.filter (fun a => decide (a.profileId = pid))
          ++ [⟨st.nextId, pid, q, t, st.now, st.now⟩] := by
      rw [hans, List.filter_append]
      simp
    have hsort : profileAnswersDesc st2 pid =
        (⟨st.nextId, pid, q, t, st.now, st.now⟩ : AnswerRow)
          :: (st.answers.filter fun a => decide (a.profileId = pid)).insertionSort recentFirst := by
      unfold profileAnswersDesc
      rw [hfilter]
      refine insertionSortAppendMax recentFirst _ _ fun y hy => ?_
      have hy' := hclock y (List.mem_of_mem_filter hy)
      simp only [recentFirst]
      omega
    unfold answersListing
    rw [hsort, List.take_succ_cons, List.map_cons]
    rfl
  · intro pid' hne item hitem
    unfold answersListing profileAnswersDesc at hitem
    obtain ⟨a, ha, rfl⟩ := List.mem_map.1 hitem
    have ha1 := List.mem_of_mem_take ha
    have ha2 := (List.mem_insertionSort recentFirst).1 ha1
    obtain ⟨hmem, hdec⟩ := List.mem_filter.1 ha2
    have hpid' : a.profileId = pid' := of_decide_eq_true hdec
    rw [hans] at hmem
    rcases List.mem_append.1 hmem with hold | hnew
    · have := hids a hold
      simp only [toListed]
      omega
    · rw [List.mem_singleton] at hnew
      subst hnew
      exact absurd hpid'.symm hne

/-- Concrete run of C2's scenario: after saving the lasagna answer for
profile 1 into a fresh two-profile store, the listing for profile 1 leads
with that record. -/
theorem c2_profile_isolation_witness :
    (answersListing ⟨[1, 2], [⟨1, 1, "Favorite food?", "Lasagna, always.", 0, 0⟩], [], 2, 1⟩
        1).head? = some ⟨1, "Favorite food?", "Lasagna, always.", 0, 0⟩ :=
  ((c2_profile_isolation store2 1 "Favorite food?" "Lasagna, always." EmbedOutcome.noProvider
      (by decide) (by decide) (by decide)).2
    ⟨[1, 2], [⟨1, 1, "Favorite food?", "Lasagna, always.", 0, 0⟩], [], 2, 1⟩ ⟨1, 0⟩
    rfl).1

/-! ## C3: ownership enforcement on update and delete -/

/-- C3: with a resolved requesting profile, updating or deleting an answer
whose owner differs fails with 403 `forbidden` and returns the store
untouched (text, timestamps and embeddings included); updating or deleting
an id that matches no record fails with 404 `not_found`, also leaving the
store untouched. -/
theorem c3_ownership_enforcement :
    (∀ (st : Store) (header : Option Int) (aid : Nat) (text : String) (emb : EmbedOutcome)
        (pid : Int) (a : AnswerRow),
      aid ≠ 0 → (jsTrim text) ≠ "" →
      resolveProfile st header = .ok pid →
      st.answers.find? (fun r => r.id == aid) = some a →
      a.profileId ≠ pid →
      updateAnswer st header aid text emb = (st, .error ⟨403, "forbidden"⟩)
      ∧ deleteAnswer st header aid = (st, .error ⟨403, "forbidden"⟩))
  ∧ (∀ (st : Store) (header : Option Int) (aid : Nat) (text : String) (emb : EmbedOutcome)
        (pid : Int),
      aid ≠ 0 → (jsTrim text) ≠ "" →
      resolveProfile st header = .ok pid →
      st.answers.find? (fun r : AnswerRow => r.id == aid) = none →
      updateAnswer st header aid text emb = (st, .error ⟨404, "not_found"⟩)
      ∧ deleteAnswer st header aid = (st, .error ⟨404, "not_found"⟩)) := by
  constructor
  · intro st header aid text emb pid a h0 ht hres hfind hown
    constructor
    · simp [updateAnswer, h0, ht, hres, hfind, hown]
    · simp [deleteAnswer, h0, hres, hfind, hown]
  · intro st header aid text emb pid h0 ht hres hfind
    constructor
    · simp [updateAnswer, h0, ht, hres, hfind]
    · simp [deleteAnswer, h0, hres, hfind]

/-- Concrete run of C3: profile 2 cannot update or delete answer 1 (owned by
profile 1), and id 7 (absent) yields 404. -/
theorem c3_ownership_enforcement_witness :
    updateAnswer store3 (some 2) 1 "new" EmbedOutcome.noProvider
      = (store3, .error ⟨403, "forbidden"⟩)
  ∧ deleteAnswer store3 (some 2) 1 = (store3, .error ⟨403, "forbidden"⟩)
  ∧ updateAnswer store3 (some 2) 7 "new" EmbedOutcome.noProvider
      = (store3, .error ⟨404, "not_found"⟩) :=
  ⟨(c3_ownership_enforcement.1 store3 (some 2) 1 "new" EmbedOutcome.noProvider 2
      ⟨1, 1, "q", "a", 0, 0⟩ (by decide) (by decide) rfl rfl (by decide)).1,
   (c3_ownership_enforcement.1 store3 (some 2) 1 "new" EmbedOutcome.noProvider 2
      ⟨1, 1, "q", "a", 0, 0⟩ (by decide) (by decide) rfl rfl (by decide)).2,
   (c3_ownership_enforcement.2 store3 (some 2) 7 "new" EmbedOutcome.noProvider 2
      (by decide) (by decide) rfl rfl).1⟩

/-! ## C6: saving survives any embedding outcome -/

/-- C6: for a valid profile, a save returns the fresh record id and created
timestamp, and the answer row is persisted, whichever way the best-effort
embedding attempt turns out (no provider configured, provider failure, or
success); the attempt's outcome never surfaces as a failure of the save. -/
theorem c6_save_best_effort (st : Store) (pid : Int) (q t : String) (emb : EmbedOutcome)
    (hp : pid ∈ st.profiles) :
    saveOk? (saveAnswerCore st pid q t emb) = some ⟨st.nextId, st.now⟩
  ∧ (⟨st.nextId, pid, q, t, st.now, st.now⟩ : AnswerRow)
      ∈ savedAnswers (saveAnswerCore st pid q t emb) := by
  obtain ⟨st2, hok, hans⟩ := saveAnswerCore_ok st pid q t emb hp
  rw [hok]
  refine ⟨rfl, ?_⟩
  show _ ∈ st2.answers
  rw [hans]
  exact List.mem_append_right _ (List.mem_singleton_self _)

/-! ## C4: retrieval ranking -/

theorem minScore_pos {α : Type} (p : α × ℝ) (h : (1 : ℝ) / 10 < p.2) :
    decide ((1 : ℝ) / 10 < p.2) = true := decide_eq_true h

theorem minScore_neg {α : Type} (p : α × ℝ) (h : ¬ (1 : ℝ) / 10 < p.2) :
    ¬ decide ((1 : ℝ) / 10 < p.2) = true := by
  simpa using h

/-- C4: ranking sorts the scored candidates descending by score with a
stable sort over the recency-ordered input (a tied pair keeps its input
order), takes the first five, then drops every candidate at or below the
0.1 threshold.  For candidates scored 0.9, 0.5, 0.05 it returns exactly the
first two, in order; a tied pair at 0.5 is returned in input (recency)
order.  In general the sort is a permutation of its input sorted descending
by score, and the ranking returns at most five candidates, all strictly
above the threshold. -/
theorem c4_retrieval_ranking :
    (∀ r1 r2 r3 : AnswerRow,
      rankCandidates [(r1, (9 : ℝ) / 10), (r2, 5 / 10), (r3, 5 / 100)]
        = [(r1, 9 / 10), (r2, 5 / 10)])
  ∧ (∀ r1 r2 : AnswerRow,
      rankCandidates [(r1, (1 : ℝ) / 2), (r2, 1 / 2)] = [(r1, 1 / 2), (r2, 1 / 2)])
  ∧ ∀ l : List (AnswerRow × ℝ),
      List.Perm (l.insertionSort scoreRel) l
      ∧ List.Sorted scoreRel (l.insertionSort scoreRel)
      ∧ (rankCandidates l).length ≤ 5
      ∧ ∀ p ∈ rankCandidates l, (1 : ℝ) / 10 < p.2 := by
  refine ⟨?_, ?_, ?_⟩
  · intro r1 r2 r3
    have hsorted : List.Sorted (scoreRel (α := AnswerRow))
        [(r1, (9 : ℝ) / 10), (r2, 5 / 10), (r3, 5 / 100)] := by
      norm_num [List.sorted_cons, scoreRel]
    unfold rankCandidates
    rw [hsorted.insertionSort_eq, List.take_of_length_le (by norm_num)]
    rw [@List.filter_cons_of_pos _ (fun q => decide ((1 : ℝ) / 10 < q.2)) (r1, (9 : ℝ) / 10)
        _ (minScore_pos (r1, (9 : ℝ) / 10) (by norm_num)),
      @List.filter_cons_of_pos _ (fun q => decide ((1 : ℝ) / 10 < q.2)) (r2, (5 : ℝ) / 10)
        _ (minScore_pos (r2, (5 : ℝ) / 10) (by norm_num)),
      @List.filter_cons_of_neg _ (fun q => decide ((1 : ℝ) / 10 < q.2)) (r3, (5 : ℝ) / 100)
        _ (minScore_neg (r3, (5 : ℝ) / 100) (by norm_num)),
      List.filter_nil]
  · intro r1 r2
    have hsorted : List.Sorted (scoreRel (α := AnswerRow))
        [(r1, (1 : ℝ) / 2), (r2, 1 / 2)] := by
      norm_num [List.sorted_cons, scoreRel]
    unfold rankCandidates
    rw [hsorted.insertionSort_eq, List.take_of_length_le (by norm_num)]
    rw [@List.filter_cons_of_pos _ (fun q => decide ((1 : ℝ) / 10 < q.2)) (r1, (1 : ℝ) / 2)
        _ (minScore_pos (r1, (1 : ℝ) / 2) (by norm_num)),
      @List.filter_cons_of_pos _ (fun q => decide ((1 : ℝ) / 10 < q.2)) (r2, (1 : ℝ) / 2)
        _ (minScore_pos (r2, (1 : ℝ) / 2) (by norm_num)),
      List.filter_nil]
  · intro l
    refine ⟨List.perm_insertionSort scoreRel l, List.sorted_insertionSort scoreRel l, ?_, ?_⟩
    · exact le_trans (List.length_filter_le _ _) (List.length_take_le 5 _)
    · intro p hp
      have := (List.mem_filter.1 hp).2
      exact of_decide_eq_true this

/-! ## C1: the disclosure suffix -/

theorem strEndsWith_append (x y : String) : strEndsWith (x ++ y) y = true := by
  unfold strEndsWith
  rw [String.data_append, List.isSuffixOf_iff_suffix]
  exact List.suffix_append _ _

theorem cosineSim_one_one : cosineSim [(1 : ℚ)] [1] = 1 := by
  have h1 : dotPre [(1 : ℚ)] [1] = 1 := by norm_num [dotPre]
  have h2 : naPre [(1 : ℚ)] [1] = 1 := by norm_num [naPre]
  have h3 : nbPre [(1 : ℚ)] [1] = 1 := by norm_num [nbPre]
  unfold cosineSim cosineDenom
  rw [h1, h2, h3]
  norm_num [Real.sqrt_one]

/-- C1 counterexample: with one well-matched embedded record and every
external call succeeding, the generative backend returns the bare text
`"hello"`; the primary path succeeds and the reply is exactly `"hello"`,
which does not end with the disclosure sentence — the handler instructs the
backend to append it but never enforces the suffix on the returned text. -/
theorem c1_counterexample :
    chatAnswer? (chatHandler envHello store1) = some "hello"
  ∧ strEndsWith "hello" disclosure = false := by
  refine ⟨?_, by decide⟩
  have hmap : (chatCandidates store1 1).map
      (fun r => (r.1, cosineSim [(1 : ℚ)] r.2))
      = [((⟨1, 1, "q", "lasagna", 0, 0⟩ : AnswerRow), (1 : ℝ))] := by
    have hc : chatCandidates store1 1
        = [((⟨1, 1, "q", "lasagna", 0, 0⟩ : AnswerRow), [(1 : ℚ)])] := rfl
    rw [hc]
    simp [cosineSim_one_one]
  have hrank : rankCandidates [((⟨1, 1, "q", "lasagna", 0, 0⟩ : AnswerRow), (1 : ℝ))]
      = [((⟨1, 1, "q", "lasagna", 0, 0⟩ : AnswerRow), (1 : ℝ))] := by
    unfold rankCandidates
    have hsort : List.insertionSort scoreRel
        [((⟨1, 1, "q", "lasagna", 0, 0⟩ : AnswerRow), (1 : ℝ))]
        = [((⟨1, 1, "q", "lasagna", 0, 0⟩ : AnswerRow), (1 : ℝ))] := rfl
    rw [hsort, List.take_of_length_le (by norm_num),
      @List.filter_cons_of_pos _ (fun q => decide ((1 : ℝ) / 10 < q.2))
        ((⟨1, 1, "q", "lasagna", 0, 0⟩ : AnswerRow), (1 : ℝ)) _
        (minScore_pos ((⟨1, 1, "q", "lasagna", 0, 0⟩ : AnswerRow), (1 : ℝ)) (by norm_num)),
      List.filter_nil]
  have hprim : chatPrimary envHello store1 (1 / 2) (1 / 2) (1 / 2)
      = Except.ok ⟨"hello",
          some ([((⟨1, 1, "q", "lasagna", 0, 0⟩ : AnswerRow), (1 : ℝ))].enum.map
            fun q => ⟨q.1 + 1, q.2.1.question, q.2.2⟩)⟩ := by
    have h1 : ¬ ¬ envHello.hasOpenAI = true := by decide
    have hres : resolveProfile store1 envHello.header = Except.ok 1 := rfl
    have hemb : envHello.embedOutcome = some [(1 : ℚ)] := rfl
    have hpdb : envHello.primaryDbError = (none : Option String) := rfl
    have hcomp : ∀ sys usr, envHello.complete sys usr = some (some "hello") := fun _ _ => rfl
    have htrim : jsTrim "hello" = "hello" := rfl
    have hne : ¬ ("hello" : String) = "" := by decide
    simp only [chatPrimary, if_neg h1, hres, hemb, hpdb, hmap, hrank, List.isEmpty_cons,
      Bool.false_eq_true, if_false, hcomp, htrim, if_neg hne]
  unfold chatHandler
  rw [if_neg (by decide : ¬ envHello.message = "")]
  rw [show toneValue envHello.toneFormality = 1 / 2 from rfl,
    show toneValue envHello.toneDetail = 1 / 2 from rfl,
    show toneValue envHello.toneHumor = 1 / 2 from rfl, hprim]
  rfl

/-- C1 (amended): every successful chat reply either ends with the exact
disclosure string — which every fallback reply, the no-candidates reply, and
the empty-or-missing generative output reply do — or is precisely the
generative backend's nonempty output text, trimmed and returned verbatim;
the prompts instruct the backend to end with the disclosure, but the code
never enforces that suffix on the returned text. -/
theorem c1_disclosure (env : ChatEnv) (st : Store) (r : ChatReply)
    (h : chatHandler env st = .ok r) :
    strEndsWith r.answer disclosure = true ∨ verbatimFrom env r.answer := by
  unfold chatHandler at h
  by_cases hm : env.message = ""
  · rw [if_pos hm] at h
    exact Except.noConfusion h
  rw [if_neg hm] at h
  cases hp : chatPrimary env st (toneValue env.toneFormality) (toneValue env.toneDetail)
      (toneValue env.toneHumor) with
  | error u =>
    rw [hp] at h
    change chatFallback env st = .ok r at h
    unfold chatFallback at h
    cases hgp : getProfileId env.header with
    | error e =>
      rw [hgp] at h
      exact Except.noConfusion h
    | ok pid =>
      rw [hgp] at h
      cases hdb : env.fallbackDbError with
      | some m =>
        rw [hdb] at h
        exact Except.noConfusion h
      | none =>
        rw [hdb] at h
        change Except.ok (⟨fallbackReply env.message
          (fallbackRows st pid (fallbackTerm env.message)), none⟩ : ChatReply) = .ok r at h
        injection h with h1
        left
        rw [← h1]
        unfold fallbackReply
        split
        · exact strEndsWith_append _ _
        · exact strEndsWith_append _ _
  | ok reply =>
    rw [hp] at h
    change Except.ok reply = Except.ok r at h
    injection h with h1
    subst h1
    unfold chatPrimary at hp
    by_cases ho : env.hasOpenAI = true
    case neg =>
      rw [if_pos ho] at hp
      exact Except.noConfusion hp
    rw [if_neg (not_not_intro ho)] at hp
    cases hres : resolveProfile st env.header with
    | error e =>
      simp only [hres] at hp
      exact Except.noConfusion hp
    | ok pid =>
      simp only [hres] at hp
      cases hemb : env.embedOutcome with
      | none =>
        simp only [hemb] at hp
        exact Except.noConfusion hp
      | some qEmb =>
        simp only [hemb] at hp
        cases hpdb : env.primaryDbError with
        | some m =>
          simp only [hpdb] at hp
          exact Except.noConfusion hp
        | none =>
          simp only [hpdb] at hp
          by_cases hempty : (rankCandidates
              ((chatCandidates st pid).map fun c => (c.1, cosineSim qEmb c.2))).isEmpty = true
          · rw [if_pos hempty] at hp
            injection hp with h2
            left
            rw [← h2]
            unfold notSureReply
            exact strEndsWith_append _ _
          · rw [if_neg hempty] at hp
            cases hcomp : env.complete
                (chatSystem (toneValue env.toneFormality) (toneValue env.toneDetail)
                  (toneValue env.toneHumor))
                (chatUserPrompt env.message (rankCandidates
                  ((chatCandidates st pid).map fun c => (c.1, cosineSim qEmb c.2)))) with
            | none =>
              simp only [hcomp] at hp
              exact Except.noConfusion hp
            | some content =>
              simp only [hcomp] at hp
              cases content with
              | none =>
                injection hp with h2
                left
                rw [← h2]
                unfold notSureReply
                exact strEndsWith_append _ _
              | some s =>
                by_cases hs : jsTrim s = ""
                · simp only [if_pos hs] at hp
                  injection hp with h2
                  left
                  rw [← h2]
                  unfold notSureReply
                  exact strEndsWith_append _ _
                · simp only [if_neg hs] at hp
                  injection hp with h2
                  right
                  rw [← h2]
                  exact ⟨_, _, s, hcomp, rfl, hs⟩

/-- Concrete run of C1's amended form: with no generative backend at all,
the fallback reply ends with the disclosure (and cannot be backend output,
since every backend call is absent). -/
theorem c1_disclosure_witness :
    strEndsWith (fallbackReply "hi" []) disclosure = true :=
  (c1_disclosure envFallbackOk store2 ⟨fallbackReply "hi" [], none⟩ rfl).resolve_right
    (by
      rintro ⟨sys, usr, s, hc, -, -⟩
      exact Option.noConfusion hc)

/-! ## C5: fallback error surface -/

theorem getProfileId_error_eq (h : Option Int) (e : ErrResp)
    (he : getProfileId h = .error e) : e = ⟨401, "missing profile id"⟩ := by
  unfold getProfileId at he
  cases h with
  | none =>
    injection he with h1
    exact h1.symm
  | some id =>
    change (if id ≤ 0 then Except.error ⟨401, "missing profile id"⟩
      else (Except.ok id : Except ErrResp Int)) = Except.error e at he
    by_cases hid : id ≤ 0
    · rw [if_pos hid] at he
      injection he with h1
      exact h1.symm
    · rw [if_neg hid] at he
      exact Except.noConfusion he

/-- C5 counterexample: with no generative backend configured and no profile
header, the request reaches the fallback (the primary path throws
`no_openai_key` at once), and the fallback itself errors with a 401 identity
error — while no storage failure is configured in this environment, so the
error is not a storage failure surfaced as an internal error. -/
theorem c5_counterexample :
    chatHandler envNoHeader store3 = .error ⟨401, "missing profile id"⟩
  ∧ envNoHeader.fallbackDbError = none
  ∧ envNoHeader.hasOpenAI = false :=
  ⟨rfl, rfl, rfl⟩

/-- C5 (amended): a chat request can fail only three ways — 400 for an empty
message (before either path runs), 401 for a missing/invalid profile-id
header (re-thrown inside the fallback), or a 500-class error when the
fallback storage query itself fails; in particular the absence of the
generative backend or embedding provider never produces an error (with a
nonempty message, a well-formed header and healthy storage, the handler
always succeeds), and every primary-path exception routes to the fallback
rather than propagating. -/
theorem c5_fallback_resilience :
    (∀ (env : ChatEnv) (st : Store) (e : ErrResp),
      chatHandler env st = .error e →
      e = ⟨400, "message is required"⟩ ∨ e = ⟨401, "missing profile id"⟩
        ∨ (e.status = 500 ∧ env.fallbackDbError ≠ none))
  ∧ (∀ (env : ChatEnv) (st : Store),
      env.message ≠ "" → okB (getProfileId env.header) = true →
      env.fallbackDbError = none → okB (chatHandler env st) = true)
  ∧ (∀ (env : ChatEnv) (st : Store), env.message ≠ "" →
      chatPrimary env st (toneValue env.toneFormality) (toneValue env.toneDetail)
        (toneValue env.toneHumor) = .error () →
      chatHandler env st = chatFallback env st) := by
  refine ⟨?_, ?_, ?_⟩
  · intro env st e h
    unfold chatHandler at h
    by_cases hm : env.message = ""
    · rw [if_pos hm] at h
      injection h with h1
      exact Or.inl h1.symm
    rw [if_neg hm] at h
    cases hp : chatPrimary env st (toneValue env.toneFormality) (toneValue env.toneDetail)
        (toneValue env.toneHumor) with
    | ok reply =>
      rw [hp] at h
      exact Except.noConfusion h
    | error u =>
      rw [hp] at h
      change chatFallback env st = .error e at h
      unfold chatFallback at h
      cases hgp : getProfileId env.header with
      | error e' =>
        rw [hgp] at h
        change (Except.error e' : Except ErrResp ChatReply) = .error e at h
        injection h with h1
        exact Or.inr (Or.inl (h1 ▸ getProfileId_error_eq env.header e' hgp))
      | ok pid =>
        rw [hgp] at h
        cases hdb : env.fallbackDbError with
        | some m =>
          rw [hdb] at h
          change (Except.error ⟨500, if m = "" then "db_error" else m⟩ :
            Except ErrResp ChatReply) = .error e at h
          injection h with h1
          refine Or.inr (Or.inr ⟨?_, by simp [hdb]⟩)
          rw [← h1]
        | none =>
          rw [hdb] at h
          exact Except.noConfusion h
  · intro env st hm hgp hdb
    unfold chatHandler
    rw [if_neg hm]
    cases hp : chatPrimary env st (toneValue env.toneFormality) (toneValue env.toneDetail)
        (toneValue env.toneHumor) with
    | ok reply => rfl
    | error u =>
      show okB (chatFallback env st) = true
      unfold chatFallback
      cases hgpe : getProfileId env.header with
      | error e =>
        rw [hgpe] at hgp
        exact absurd hgp (by simp [okB])
      | ok pid =>
        rw [hdb]
        rfl
  · intro env st hm hp
    unfold chatHandler
    rw [if_neg hm, hp]

/-- Concrete runs of C5: a fallback storage failure surfaces as the
configured 500-class error, and with a valid header plus healthy storage the
fallback succeeds even with every provider absent. -/
theorem c5_fallback_resilience_witness :
    ((⟨500, "relation answers does not exist"⟩ : ErrResp) = ⟨400, "message is required"⟩
      ∨ (⟨500, "relation answers does not exist"⟩ : ErrResp) = ⟨401, "missing profile id"⟩
      ∨ ((⟨500, "relation answers does not exist"⟩ : ErrResp).status = 500
          ∧ envDbDown.fallbackDbError ≠ none))
  ∧ okB (chatHandler envFallbackOk store3) = true :=
  ⟨c5_fallback_resilience.1 envDbDown store3 ⟨500, "relation answers does not exist"⟩ rfl,
    c5_fallback_resilience.2.1 envFallbackOk store3 (by decide) rfl rfl⟩

/-! ## C9: fallback lexical search -/

theorem takeWhile_all {p : Char → Bool} (l : List Char) (h : ∀ c ∈ l, p c = true) :
    l.takeWhile p = l := by
  induction l with
  | nil => rfl
  | cons c cs ih =>
    rw [List.takeWhile_cons_of_pos (h c (List.mem_cons_self c cs)),
      ih fun a ha => h a (List.mem_cons_of_mem c ha)]

/-- C9 counterexample: for the query `" hello world"` (leading space) the
term the fallback searches for is the whole query, not the first
whitespace-delimited token `"hello"`: element 0 of `split(/\s+/)` is the
empty string, which is falsy, so `|| message` kicks in. -/
theorem c9_counterexample :
    fallbackTerm " hello world" = " hello world"
  ∧ fallbackTerm " hello world" ≠ "hello" := by
  constructor
  · rfl
  · decide

/-- C9 (amended): the fallback search term is the maximal whitespace-free
leading run of the query — the first whitespace-delimited token — when the
query does not begin with whitespace, and the whole query when it does begin
with whitespace (element 0 of the split being empty and falsy) or contains
no whitespace at all; the fallback then fetches at most 3 most-recent
records of the profile whose question or answer text matches the term under
case-insensitive SQL LIKE containment. -/
theorem c9_fallback_search :
    (∀ tok rest : String, tok ≠ "" → (∀ c ∈ tok.data, c.isWhitespace = false) →
      fallbackTerm (tok ++ " " ++ rest) = tok)
  ∧ (∀ msg : String, msg.data.head?.any Char.isWhitespace = true → fallbackTerm msg = msg)
  ∧ (∀ msg : String, (∀ c ∈ msg.data, c.isWhitespace = false) → fallbackTerm msg = msg)
  ∧ ∀ (st : Store) (pid : Int) (term : String),
      (fallbackRows st pid term).length ≤ 3
      ∧ ∀ a ∈ fallbackRows st pid term, a.profileId = pid
          ∧ (ilikeContains term a.answerText || ilikeContains term a.question) = true := by
  refine ⟨?_, ?_, ?_, ?_⟩
  · intro tok rest htok hws
    unfold fallbackTerm
    have hdata : (tok ++ " " ++ rest).data = tok.data ++ (' ' :: rest.data) := by
      rw [String.data_append, String.data_append, List.append_assoc]
      rfl
    rw [hdata, List.takeWhile_append_of_pos (fun a ha => by simp [hws a ha]),
      List.takeWhile_cons_of_neg (by decide), List.append_nil]
    have heta : (⟨tok.data⟩ : String) = tok := rfl
    rw [heta, if_neg htok]
  · intro msg hws
    cases msg with
    | mk l =>
      cases l with
      | nil => simp at hws
      | cons c cs =>
        simp only [List.head?_cons, Option.any_some] at hws
        unfold fallbackTerm
        rw [List.takeWhile_cons_of_neg (by simp [hws])]
        rfl
  · intro msg hws
    unfold fallbackTerm
    rw [takeWhile_all _ fun c hc => by simp [hws c hc]]
    have heta : (⟨msg.data⟩ : String) = msg := rfl
    rw [heta]
    show (if msg = "" then msg else msg) = msg
    split <;> rfl
  · intro st pid term
    refine ⟨List.length_take_le 3 _, ?_⟩
    intro a ha
    have h1 := List.mem_of_mem_take ha
    have h2 := (List.mem_insertionSort recentFirst).1 h1
    obtain ⟨hmem, hpred⟩ := List.mem_filter.1 h2
    rw [Bool.and_eq_true] at hpred
    exact ⟨of_decide_eq_true hpred.1, hpred.2⟩

/-- Concrete runs of C9's amended term selection: a query with a leading
token searches for that token; a query starting with whitespace searches for
the whole query. -/
theorem c9_fallback_search_witness :
    fallbackTerm "What is" = "What" ∧ fallbackTerm " hi" = " hi" :=
  ⟨c9_fallback_search.1 "What" "is" (by decide) (by decide),
    c9_fallback_search.2.1 " hi" (by decide)⟩

/-! ## C7: reindex partial-failure semantics -/

theorem answerId_update_preserved (e : EmbedRow) (aid : Nat) (c : String) (v : List ℚ)
    (n : Nat) :
    ((if e.answerId == aid then
        { e with content := c, embedding := v, updatedAt := n } else e) : EmbedRow).answerId
      = e.answerId := by
  split <;> rfl

theorem findEmbedding_upsert_self (st : Store) (aid : Nat) (c : String) (v : List ℚ) :
    (findEmbedding (upsertEmbedding st aid c v) aid).isSome := by
  unfold upsertEmbedding findEmbedding
  split
  case isTrue hfound =>
    rw [List.find?_isSome] at hfound ⊢
    obtain ⟨e, he, hid⟩ := hfound
    refine ⟨_, List.mem_map_of_mem _ he, ?_⟩
    rw [answerId_update_preserved]
    exact hid
  case isFalse hfound =>
    rw [List.find?_isSome]
    exact ⟨_, List.mem_append_right _ (List.mem_singleton_self _), by simp⟩

theorem findEmbedding_upsert_isSome (st : Store) (aid aid' : Nat) (c : String) (v : List ℚ)
    (h : (findEmbedding st aid').isSome) :
    (findEmbedding (upsertEmbedding st aid c v) aid').isSome := by
  unfold findEmbedding at h
  rw [List.find?_isSome] at h
  obtain ⟨e, he, hid⟩ := h
  unfold upsertEmbedding findEmbedding
  split
  · rw [List.find?_isSome]
    refine ⟨_, List.mem_map_of_mem _ he, ?_⟩
    rw [answerId_update_preserved]
    exact hid
  · rw [List.find?_isSome]
    exact ⟨e, List.mem_append_left _ he, hid⟩

theorem reindexLoop_preserves (f : Nat → Option (List ℚ)) (l : List AnswerRow) :
    ∀ (st : Store) (ok fail aid : Nat), (findEmbedding st aid).isSome →
      (findEmbedding (reindexLoop f l st ok fail).1 aid).isSome := by
  induction l with
  | nil => intro st ok fail aid h; exact h
  | cons a as ih =>
    intro st ok fail aid h
    unfold reindexLoop
    cases hf : f a.id with
    | some v => exact ih _ _ _ aid (findEmbedding_upsert_isSome st a.id aid a.answerText v h)
    | none => exact ih _ _ _ aid h

theorem reindexLoop_indexes (f : Nat → Option (List ℚ)) (l : List AnswerRow) :
    ∀ (st : Store) (ok fail : Nat) (r : AnswerRow), r ∈ l → (f r.id).isSome →
      (findEmbedding (reindexLoop f l st ok fail).1 r.id).isSome := by
  induction l with
  | nil => intro _ _ _ _ h; exact absurd h (List.not_mem_nil _)
  | cons a as ih =>
    intro st ok fail r hr hsome
    rcases List.mem_cons.1 hr with rfl | hr'
    · obtain ⟨v, hv⟩ := Option.isSome_iff_exists.1 hsome
      unfold reindexLoop
      rw [hv]
      exact reindexLoop_preserves f as _ _ _ _ (findEmbedding_upsert_self st r.id r.answerText v)
    · unfold reindexLoop
      cases hf : f a.id with
      | some v => exact ih _ _ _ r hr' hsome
      | none => exact ih _ _ _ r hr' hsome

theorem reindexLoop_counts (f : Nat → Option (List ℚ)) (l : List AnswerRow) :
    ∀ (st : Store) (ok fail : Nat),
      (reindexLoop f l st ok fail).2.1 = ok + l.countP (fun r => (f r.id).isSome)
      ∧ (reindexLoop f l st ok fail).2.2 = fail + l.countP (fun r => (f r.id).isNone) := by
  induction l with
  | nil => intro st ok fail; simp [reindexLoop]
  | cons r rs ih =>
    intro st ok fail
    unfold reindexLoop
    cases hf : f r.id with
    | some v =>
      obtain ⟨h1, h2⟩ := ih (upsertEmbedding st r.id r.answerText v) (ok + 1) fail
      constructor
      · rw [h1, List.countP_cons]
        simp [hf]
        omega
      · rw [h2, List.countP_cons]
        simp [hf]
    | none =>
      obtain ⟨h1, h2⟩ := ih st ok (fail + 1)
      constructor
      · rw [h1, List.countP_cons]
        simp [hf]
      · rw [h2, List.countP_cons]
        simp [hf]
        omega

theorem countP_some_add_none (f : Nat → Option (List ℚ)) (l : List AnswerRow) :
    l.countP (fun r => (f r.id).isSome) + l.countP (fun r => (f r.id).isNone) = l.length := by
  induction l with
  | nil => simp
  | cons r rs ih =>
    cases hf : f r.id <;> simp [List.countP_cons, hf] <;> omega

/-- C7: with a provider configured and a resolved profile, a reindex batch
in which the embedding call fails on exactly one pending record reports
`failed = 1` and `indexed` equal to the number of remaining records, still
attaches an embedding to every record whose call succeeded (the batch is not
aborted), and reports fullness of the batch (`run again to index more` at
the 100-record limit, `complete` otherwise, the batch being the oldest
records first).  With no provider configured it returns a 400 error and the
untouched store, before any storage access. -/
theorem c7_reindex_partial_failure :
    (∀ (st : Store) (header : Option Int) (embedOf : Nat → Option (List ℚ)) (pid : Int),
      resolveProfile st header = .ok pid →
      (reindexPending st pid).countP (fun r => (embedOf r.id).isNone) = 1 →
      (reindex st true header embedOf).2 =
        .ok ⟨(reindexPending st pid).length - 1, 1,
          if 100 ≤ (reindexPending st pid).length then "run again to index more"
          else "complete"⟩
      ∧ ∀ r ∈ reindexPending st pid, (embedOf r.id).isSome →
          (findEmbedding (reindex st true header embedOf).1 r.id).isSome)
  ∧ ∀ (st : Store) (header : Option Int) (embedOf : Nat → Option (List ℚ)),
      reindex st false header embedOf = (st, .error ⟨400, "OPENAI_API_KEY not set"⟩) := by
  constructor
  · intro st header embedOf pid hres hone
    have hcounts := reindexLoop_counts embedOf (reindexPending st pid) st 0 0
    have hsum := countP_some_add_none embedOf (reindexPending st pid)
    constructor
    · simp only [reindex, not_true_eq_false, if_false, hres]
      have hlen : (reindexPending st pid).countP (fun r => (embedOf r.id).isSome)
          = (reindexPending st pid).length - 1 := by omega
      rw [hcounts.1, hcounts.2, hone, hlen]
      simp
    · intro r hr hsome
      simp only [reindex, not_true_eq_false, if_false, hres]
      exact reindexLoop_indexes embedOf (reindexPending st pid) st 0 0 r hr hsome
  · intro st header embedOf
    rfl

/-- Concrete run of C7: three pending answers, the embedding of answer 2
fails; the job reports two indexed, one failed, batch not full. -/
theorem c7_reindex_partial_failure_witness :
    (reindex store7 true (some 1) embed7).2 = .ok ⟨2, 1, "complete"⟩
  ∧ (findEmbedding (reindex store7 true (some 1) embed7).1 3).isSome :=
  ⟨((c7_reindex_partial_failure.1 store7 (some 1) embed7 1 rfl (by decide)).1).trans
      rfl,
   (c7_reindex_partial_failure.1 store7 (some 1) embed7 1 rfl (by decide)).2
     ⟨3, 1, "q3", "a3", 2, 2⟩ (by decide) (by decide)⟩

/-- Concrete run of C6: the save succeeds and persists the row even though
the embedding call fails. -/
theorem c6_save_best_effort_witness :
    saveOk? (saveAnswerCore store2 1 "q" "t" EmbedOutcome.failed) = some ⟨1, 0⟩
  ∧ (⟨1, 1, "q", "t", 0, 0⟩ : AnswerRow)
      ∈ savedAnswers (saveAnswerCore store2 1 "q" "t" EmbedOutcome.failed) :=
  c6_save_best_effort store2 1 "q" "t" EmbedOutcome.failed (by decide)

end Wid
